import Mathlib

/-!
Verification development for the ShiIuTVmobile search screen
(`src/app/search.tsx`) and its virtualized list presenter
(`src/components/CustomScrollView.tsx`).

The TypeScript code is an event-driven React component.  We embed it as an
explicit state machine: the component state (`keyword`, `results`, `loading`,
`error`), the debounce timer (`debounceTimer`), the set of dispatched remote
requests still awaiting resolution, and a log of issued remote calls.  Events
are term changes (the `useEffect` watching `keyword`), debounce-timer fires,
explicit submits (`onSearchPress`), and resolutions of in-flight remote calls
(the continuation of `handleSearch` after `await api.searchVideos`).  Time is
modelled as natural-number milliseconds; a run is a time-stamped event list.
-/

namespace ShiIuTV

/-- One search result, as consumed by `renderItem` in `search.tsx`
(`item.id`, `item.source`, `item.title`, `item.poster`, `item.year`,
`item.source_name`). -/
structure SearchResult where
  id : Nat
  source : String
  title : String
  poster : String
  year : String
  source_name : String
deriving DecidableEq, Repr

/-- Debounce delay in milliseconds: `DEBOUNCE_DELAY = 500`, `src/app/search.tsx` line 26. -/
def DEBOUNCE_DELAY : Nat := 500

/-- The fixed no-results message set by `handleSearch` when the remote call
succeeds with an empty list (`setError("没有找到相关内容")`). -/
def noResultsMessage : String := "没有找到相关内容"

/-- The fixed failure message set by the `catch` branch of `handleSearch`
(`setError("搜索失败，请稍后重试。")`). -/
def searchFailedMessage : String := "搜索失败，请稍后重试。"

/-- The `emptyMessage` the search screen passes to `CustomScrollView`
(`emptyMessage="输入关键词开始搜索"`). -/
def searchEmptyMessage : String := "输入关键词开始搜索"

/-- The whole observable state of `SearchScreen`:
React state (`keyword`, `results`, `loading`, `error`), the debounce timer
(`timer` holds the absolute fire time and the term captured by the
`setTimeout` closure), the in-flight remote requests (request id and term;
`handleSearch` has awaited `api.searchVideos` and not yet resumed), a log
`calls` of remote calls issued so far (issue time and term), a fresh request
id counter, and the current time `now` in milliseconds. -/
structure Model where
  keyword : String
  results : List SearchResult
  loading : Bool
  error : Option String
  timer : Option (Nat × String)
  inflight : List (Nat × String)
  calls : List (Nat × String)
  nextReq : Nat
  now : Nat
deriving Repr

/-- The initial component state: `useState("")`, `useState([])`,
`useState(false)`, `useState(null)`, no timer, nothing in flight. -/
def initModel : Model :=
  { keyword := ""
    results := []
    loading := false
    error := none
    timer := none
    inflight := []
    calls := []
    nextReq := 0
    now := 0 }

/-- Model of JavaScript `String.prototype.trim`: strip leading and trailing
whitespace.  Stated over the character list so that the kernel can evaluate
it on concrete inputs. -/
def jsTrim (s : String) : String :=
  String.mk (((s.data.dropWhile Char.isWhitespace).reverse.dropWhile
      Char.isWhitespace).reverse)

/-- Model of JavaScript `msg.split("_")[0]`: the characters of the message
before its first underscore (the whole message when it has none). -/
def splitHead (s : String) : String :=
  String.mk (s.data.takeWhile (fun c => c != '_'))

/-- The synchronous prefix of `handleSearch(term)` (lines 90–101): on an
empty-trim term it only stops the loading animation and returns; otherwise
it clears the error and issues the remote call `api.searchVideos(term)`,
which becomes an in-flight request and is recorded in the call log. -/
def handleSearchDispatch (s : Model) (term : String) : Model :=
  if jsTrim term = "" then
    { s with loading := false }
  else
    { s with error := none
             inflight := s.inflight ++ [(s.nextReq, term)]
             calls := s.calls ++ [(s.now, term)]
             nextReq := s.nextReq + 1 }

/-- The continuation of `handleSearch` after `await api.searchVideos(term)`
(lines 101–113): non-empty success stores the results; empty success sets the
fixed no-results message and clears the list; rejection sets the fixed failure
message (and logs, which we do not model); the `finally` block always clears
`loading`.  There is no staleness/generation check. -/
def applyResponse (s : Model) (resp : Except Unit (List SearchResult)) : Model :=
  let s1 :=
    match resp with
    | .ok rs =>
        if rs.length > 0 then
          { s with results := rs }
        else
          { s with error := some noResultsMessage, results := [] }
    | .error _ => { s with error := some searchFailedMessage }
  { s1 with loading := false }

/-- Resolution of the in-flight request with id `id`: if it is still pending
it is removed from the in-flight set and `applyResponse` runs; resolving an
unknown id is a no-op.  Mirrors the resumption of one suspended
`handleSearch` invocation. -/
def resolveReq (s : Model) (id : Nat) (resp : Except Unit (List SearchResult)) : Model :=
  if s.inflight.any (fun p => p.1 == id) then
    applyResponse { s with inflight := s.inflight.filter (fun p => p.1 != id) } resp
  else
    s

/-- The `useEffect` watching `keyword` (lines 46–70), run when the term
changes to `t`: clear the previous timer; if `t.trim()` is non-empty, show
loading immediately, clear the old error, and schedule `handleSearch(t)`
after `DEBOUNCE_DELAY`; otherwise clear results, error and loading. -/
def onTermChanged (s : Model) (t : String) : Model :=
  let s0 := { s with keyword := t, timer := none }
  if jsTrim t = "" then
    { s0 with results := [], error := none, loading := false }
  else
    { s0 with loading := true
              error := none
              timer := some (s.now + DEBOUNCE_DELAY, t) }

/-- Explicit submit, `onSearchPress` (lines 116–122): clear any pending debounce timer and run
`handleSearch(keyword)` immediately.  Also bound to `onSubmitEditing`. -/
def onSearchPress (s : Model) : Model :=
  handleSearchDispatch { s with timer := none } s.keyword

/-- Fire the debounce timer if it is due at or before time `T`: the
`setTimeout` callback runs `handleSearch` on the captured term at its
scheduled fire time. -/
def fireDue (s : Model) (T : Nat) : Model :=
  match s.timer with
  | some (ft, w) =>
      if ft ≤ T then
        handleSearchDispatch { s with timer := none, now := ft } w
      else s
  | none => s

/-- Advance the clock to time `T`, running any due timer callback first. -/
def advanceTo (s : Model) (T : Nat) : Model :=
  let s1 := fireDue s T
  { s1 with now := T }

/-- External events driving the component. -/
inductive Ev where
  | type (t : String)
  | press
  | resolve (id : Nat) (resp : Except Unit (List SearchResult))
deriving Repr

/-- Process one event (after the clock has advanced to its time). -/
def handleEv (s : Model) (e : Ev) : Model :=
  match e with
  | .type t => onTermChanged s t
  | .press => onSearchPress s
  | .resolve id resp => resolveReq s id resp

/-- Run a time-stamped event list: advance to the time of each event (firing any
due timer) and process the event. -/
def runFrom (s : Model) : List (Nat × Ev) → Model
  | [] => s
  | (t, e) :: rest => runFrom (handleEv (advanceTo s t) e) rest

/-! ### The remote-control message bus (`useEffect` at lines 72–80) -/

/-- The remote-input `useEffect`: when `lastMessage` is truthy (non-null and
non-empty) and `targetPage === "search"`, set the keyword to
`lastMessage.split("_")[0]` and call `clearMessage()`; otherwise do nothing.
Returns the new keyword and whether `clearMessage` was invoked. -/
def handleRemoteMessage (keyword : String) (lastMessage : Option String)
    (targetPage : String) : String × Bool :=
  match lastMessage with
  | none => (keyword, false)
  | some m =>
      if m ≠ "" ∧ targetPage = "search" then
        (splitHead m, true)
      else
        (keyword, false)

/-! ### The virtualized presenter (`src/components/CustomScrollView.tsx`) -/

/-- The observable render outcomes of `CustomScrollView`: the early-return
error view (lines 77–85), the `ListEmptyComponent` loading indicator or empty
message (lines 146–155), or the materialized item list. -/
inductive ListRender where
  | errorOnly (msg : String)
  | loadingIndicator
  | emptyView (msg : String)
  | itemsView (data : List SearchResult)
deriving DecidableEq, Repr

/-- The default `emptyMessage` of `CustomScrollView` ("暂无内容"). -/
def defaultEmptyMessage : String := "暂无内容"

/-- The `FlashList` part of `CustomScrollView` (lines 127–156): its
`ListEmptyComponent`, shown exactly when `data` is empty, is a loading
indicator when `loading` and the `emptyMessage` otherwise; with data present
the items render. -/
def flashListRender (data : List SearchResult) (loading : Bool)
    (emptyMessage : String) : ListRender :=
  if data.isEmpty then
    if loading then .loadingIndicator else .emptyView emptyMessage
  else .itemsView data

/-- Branch structure of `CustomScrollView`: the early return at line 77 is
`if (error)`, the JavaScript truthiness of a `string | null` value — only a
non-null, NON-EMPTY string short-circuits to the error-only view; a null or
empty-string error falls through to the `FlashList`. -/
def CustomScrollView (data : List SearchResult) (loading : Bool)
    (error : Option String) (emptyMessage : String) : ListRender :=
  match error with
  | some e =>
      if e = "" then flashListRender data loading emptyMessage
      else .errorOnly e
  | none => flashListRender data loading emptyMessage

/-- The scroll handler (line 60–65): `showScrollToTop` becomes
`contentOffset.y > 200`. -/
def handleScroll (offsetY : Int) : Bool := offsetY > 200

/-- The scroll-to-top button (lines 158–166) renders exactly when
`deviceType !== "tv" && showScrollToTop`. -/
def scrollToTopButtonVisible (deviceType : String) (showScrollToTop : Bool) : Bool :=
  decide (deviceType ≠ "tv") && showScrollToTop

/-- The imperative effect of `scrollToTop` (lines 68–74). -/
structure ScrollToTopAction where
  targetOffset : Int
  animated : Bool
  focusFirstItemDelayMs : Nat
deriving DecidableEq, Repr

/-- Activating `scrollToTop` scrolls to offset 0 with animation and focuses the first
card after a 500 ms timeout. -/
def scrollToTop : ScrollToTopAction :=
  { targetOffset := 0, animated := true, focusFirstItemDelayMs := 500 }

/-! ### Rendering done by the search screen itself (`renderSearchContent`, lines 186–198) -/

/-- What the search screen renders below the input row: its own error view
when `error` is non-null, else the presenter invoked with `error={null}` and
the fixed empty message of the screen. -/
inductive ScreenRender where
  | screenError (msg : String)
  | presenter (out : ListRender)
deriving DecidableEq, Repr

/-- Model of `renderSearchContent` (the part relevant to search state):
`error ?` the dedicated error view `: CustomScrollView` with
`data={results}`, `loading={loading}`, `error={null}`,
`emptyMessage="输入关键词开始搜索"`.  The `error ?` test is again JavaScript
truthiness, so an empty-string error also renders the presenter. -/
def renderSearchContent (results : List SearchResult) (loading : Bool)
    (error : Option String) : ScreenRender :=
  match error with
  | some e =>
      if e = "" then .presenter (CustomScrollView results loading none searchEmptyMessage)
      else .screenError e
  | none => .presenter (CustomScrollView results loading none searchEmptyMessage)

/-! ### Rapid term-change sequences (for the debounce theorem) -/

/-- Project a list of time-stamped term changes into run events. -/
def typeEvents (cs : List (Nat × String)) : List (Nat × Ev) :=
  cs.map (fun p => (p.1, Ev.type p.2))

/-- A rapid change sequence after time `prev`: each change comes strictly
after the previous one but strictly within `DEBOUNCE_DELAY` of it, and every
term is non-blank. -/
def rapidFrom : Nat → List (Nat × String) → Bool
  | _, [] => true
  | prev, (t, w) :: rest =>
      decide (prev < t) && decide (t < prev + DEBOUNCE_DELAY) &&
      decide (jsTrim w ≠ "") && rapidFrom t rest

/-! ### Concrete sample data used in witnesses and counterexamples -/

/-- A sample result item, standing for the payload of query A. -/
def itemA : SearchResult :=
  { id := 1, source := "sA", title := "Alpha", poster := "pA", year := "2001",
    source_name := "Source A" }

/-- A sample result item, standing for the payload of query B. -/
def itemB : SearchResult :=
  { id := 2, source := "sB", title := "Beta", poster := "pB", year := "2002",
    source_name := "Source B" }

/-! ## Theorems for the claims -/

/-- C5: a term change to an empty or whitespace-only string cancels any
pending debounce timer and moves the controller to the Idle projection —
results cleared, error cleared, loading off — touching nothing else; in
particular the call log is unchanged, so no remote search call is issued for
that change. -/
theorem empty_term_resets_to_idle (s : Model) (t : String)
    (h : jsTrim t = "") :
    onTermChanged s t =
      { s with keyword := t, timer := none, results := [],
               error := none, loading := false } := by
  simp [onTermChanged, h]

/-- Witness for C5: clearing the term from a state with a pending timer,
stale results and a stale error yields exactly the Idle state. -/
theorem empty_term_resets_to_idle_witness :
    onTermChanged
      { initModel with keyword := "a", results := [itemA], loading := true,
                       error := some searchFailedMessage,
                       timer := some (500, "a") } "  " =
      { initModel with keyword := "  ", results := [], loading := false,
                       error := none, timer := none } :=
  empty_term_resets_to_idle _ "  " (by decide)

/-- C6: pressing the search button (or submitting from the keyboard, both
bound to `onSearchPress`) always cancels the pending debounce timer; with a
non-blank current term the remote search call is issued immediately, at the
current time, and with a blank term `handleSearch` only stops the loading
animation and issues no call. -/
theorem submit_bypasses_debounce (s : Model) :
    (onSearchPress s).timer = none ∧
    (jsTrim s.keyword ≠ "" →
      (onSearchPress s).calls = s.calls ++ [(s.now, s.keyword)] ∧
      (onSearchPress s).inflight = s.inflight ++ [(s.nextReq, s.keyword)]) ∧
    (jsTrim s.keyword = "" →
      (onSearchPress s).calls = s.calls ∧ (onSearchPress s).loading = false) := by
  unfold onSearchPress handleSearchDispatch
  by_cases he : jsTrim s.keyword = "" <;> simp [he]

/-- Witness for C6: with keyword "batman", a pending timer and an empty call
log, pressing search clears the timer and issues the call at once. -/
theorem submit_bypasses_debounce_witness :
    (onSearchPress { initModel with keyword := "batman",
                                    timer := some (600, "batman") }).timer = none ∧
    (onSearchPress { initModel with keyword := "batman",
                                    timer := some (600, "batman") }).calls =
      [(0, "batman")] :=
  ⟨(submit_bypasses_debounce _).1,
   ((submit_bypasses_debounce _).2.1 (by decide)).1⟩

/-- C8 counterexample: the early return of `CustomScrollView` tests the
truthiness of `error`, not nullness — at the non-null but empty error string,
with no items and loading off, the program renders the empty message, not the
error-only view, so a non-null error does not always render only the error
view. -/
theorem blank_error_renders_list :
    CustomScrollView [] false (some "") defaultEmptyMessage
      = .emptyView defaultEmptyMessage ∧
    ListRender.emptyView defaultEmptyMessage ≠ .errorOnly "" := by
  constructor
  · rfl
  · decide

/-- C8 amended: presenter branch contract of `CustomScrollView` under
JavaScript truthiness — a truthy error (non-null AND non-empty) renders the
error-only view whatever the items and loading flag are; otherwise (error
null or the empty string), an empty item list renders the loading indicator
when loading and the supplied empty message when not. -/
theorem presenter_branch_contract_truthy (items : List SearchResult)
    (loading : Bool) (e : String) (msg : String) (he : e ≠ "") :
    CustomScrollView items loading (some e) msg = .errorOnly e ∧
    CustomScrollView [] true none msg = .loadingIndicator ∧
    CustomScrollView [] false none msg = .emptyView msg ∧
    CustomScrollView [] true (some "") msg = .loadingIndicator ∧
    CustomScrollView [] false (some "") msg = .emptyView msg := by
  refine ⟨?_, rfl, rfl, rfl, rfl⟩
  simp [CustomScrollView, he]

/-- Witness for C8 amended: a concrete truthy error over one item renders the
error-only view, and the null and empty-string branches render the
`FlashList` as stated. -/
theorem presenter_branch_contract_truthy_witness :
    CustomScrollView [itemA] false (some "oops") "m" = .errorOnly "oops" ∧
    CustomScrollView [] true none "m" = .loadingIndicator ∧
    CustomScrollView [] false none "m" = .emptyView "m" ∧
    CustomScrollView [] true (some "") "m" = .loadingIndicator ∧
    CustomScrollView [] false (some "") "m" = .emptyView "m" :=
  presenter_branch_contract_truthy [itemA] false "oops" "m" (by decide)

/-- C10: the search screen passes `error={null}` to `CustomScrollView` and
shows search errors in its own dedicated view, so no reachable render of the
search screen is a presenter invocation that took the internal error
branch. -/
theorem search_presenter_error_unreachable (results : List SearchResult)
    (loading : Bool) (error : Option String) (m : String) :
    renderSearchContent results loading error ≠ .presenter (.errorOnly m) := by
  have hflash : ∀ msg, flashListRender results loading msg ≠ .errorOnly m := by
    intro msg
    unfold flashListRender
    split
    · split <;> simp
    · simp
  cases error with
  | some e =>
      simp only [renderSearchContent]
      split
      · simp [CustomScrollView, hflash]
      · simp
  | none => simp [renderSearchContent, CustomScrollView, hflash]

/-- C4 counterexample: an injected message containing an underscore is not
copied verbatim into the search term — the screen keeps only the part before
the first underscore: message "abc_123" for page "search" sets the keyword to
"abc", which differs from the injected message text. -/
theorem remote_message_not_exact_text :
    handleRemoteMessage "old" (some "abc_123") "search" = ("abc", true) ∧
    "abc" ≠ "abc_123" := by
  constructor
  · decide
  · decide

/-- C4 amended: a non-empty message targeted at the search page sets the
keyword to the message text truncated at the first underscore
(`lastMessage.split("_")[0]`) and clears the message exactly once; a message
for another page, an empty message, and an absent message are all ignored and
not cleared. -/
theorem remote_message_contract (kw m page : String) :
    (m ≠ "" → page = "search" →
      handleRemoteMessage kw (some m) page = (splitHead m, true)) ∧
    (page ≠ "search" → handleRemoteMessage kw (some m) page = (kw, false)) ∧
    handleRemoteMessage kw (some "") page = (kw, false) ∧
    handleRemoteMessage kw none page = (kw, false) := by
  refine ⟨fun hm hp => ?_, fun hp => ?_, ?_, rfl⟩
  · simp [handleRemoteMessage, hm, hp]
  · simp [handleRemoteMessage, hp]
  · simp [handleRemoteMessage]

/-- Witness for C4 amended: message "abc_123" for page "search" over keyword
"old" yields the truncated term and one acknowledgement. -/
theorem remote_message_contract_witness :
    handleRemoteMessage "old" (some "abc_123") "search" =
      (splitHead "abc_123", true) :=
  (remote_message_contract "old" "abc_123" "search").1 (by decide) rfl

/-- C9 counterexample: on a TV device the scroll-to-top control is not
rendered even though the vertical offset 300 exceeds the 200-unit threshold
(the render is gated on `deviceType !== "tv"`), so the control is not shown
exactly when the offset exceeds 200. -/
theorem scroll_top_hidden_on_tv :
    handleScroll 300 = true ∧
    scrollToTopButtonVisible "tv" (handleScroll 300) = false := by
  decide

/-- C9 amended: on non-TV devices the scroll-to-top control is visible
exactly when the vertical scroll offset exceeds 200 units (so it disappears
again at or below 200); on TV it is never rendered.  Activating it scrolls to
offset 0 with animation and focuses the first rendered item after the 500 ms
settle delay. -/
theorem scroll_to_top_visibility (d : String) (y : Int) (hd : d ≠ "tv") :
    (scrollToTopButtonVisible d (handleScroll y) = true ↔ y > 200) ∧
    scrollToTopButtonVisible "tv" (handleScroll y) = false ∧
    scrollToTop.targetOffset = 0 ∧ scrollToTop.animated = true ∧
    scrollToTop.focusFirstItemDelayMs = 500 := by
  refine ⟨?_, ?_, rfl, rfl, rfl⟩
  · simp [scrollToTopButtonVisible, handleScroll, hd]
  · simp [scrollToTopButtonVisible]

/-- Witness for C9 amended: on a mobile device, offset 201 shows the control
and the scroll-to-top action has the stated shape. -/
theorem scroll_to_top_visibility_witness :
    (scrollToTopButtonVisible "mobile" (handleScroll 201) = true ↔ (201 : Int) > 200) ∧
    scrollToTopButtonVisible "tv" (handleScroll 201) = false ∧
    scrollToTop.targetOffset = 0 ∧ scrollToTop.animated = true ∧
    scrollToTop.focusFirstItemDelayMs = 500 :=
  scroll_to_top_visibility "mobile" 201 (by decide)

/-- C1 counterexample: type "a" at 0 ms (its call fires at 500 ms), type "ab"
at 600 ms before the first call resolves (its call fires at 1100 ms); the
newer query resolves first at 1200 ms with `[itemB]`, then the superseded
query resolves at 1300 ms with `[itemA]`.  `handleSearch` has no staleness
guard, so the stale result overwrites the newer one: the final results are
`[itemA]`, not those of the newer query. -/
theorem stale_result_overwrites_newer :
    (runFrom initModel
        [(0, .type "a"), (600, .type "ab"),
         (1200, .resolve 1 (.ok [itemB])), (1300, .resolve 0 (.ok [itemA]))]).results
      = [itemA] ∧ itemA ≠ itemB := by
  constructor
  · decide
  · decide

/-- C1 amended: resolution order, not dispatch order, decides the final
state — whichever in-flight request resolves last writes `results`
unconditionally (there is no generation counter), so a stale query can
overwrite a newer one when it resolves later. -/
theorem resolve_last_writer_wins (s : Model) (id : Nat) (rs : List SearchResult)
    (hmem : s.inflight.any (fun p => p.1 == id) = true) (hne : rs ≠ []) :
    (resolveReq s id (.ok rs)).results = rs ∧
    (resolveReq s id (.ok rs)).loading = false := by
  have h1 : rs.length > 0 := List.length_pos.mpr hne
  simp [resolveReq, hmem, applyResponse, h1]

/-- Witness for C1 amended: a single pending request resolving with `[itemA]`
writes exactly `[itemA]`. -/
theorem resolve_last_writer_wins_witness :
    (resolveReq { initModel with inflight := [(0, "a")] } 0 (.ok [itemA])).results
      = [itemA] ∧
    (resolveReq { initModel with inflight := [(0, "a")] } 0 (.ok [itemA])).loading
      = false :=
  resolve_last_writer_wins _ 0 [itemA] (by decide) (by decide)

/-- C3 counterexample: a search for "x" succeeds with `[itemA]`; a later
search for "y" rejects.  The failed state carries the fixed retry message and
loading is off, but the `catch` branch never clears `results`, so the item
list of the prior successful query survives into the failed state. -/
theorem failure_retains_prior_results :
    (runFrom initModel
        [(0, .type "x"), (600, .resolve 0 (.ok [itemA])),
         (700, .type "y"), (1300, .resolve 1 (.error ()))]).error
      = some searchFailedMessage ∧
    (runFrom initModel
        [(0, .type "x"), (600, .resolve 0 (.ok [itemA])),
         (700, .type "y"), (1300, .resolve 1 (.error ()))]).loading = false ∧
    (runFrom initModel
        [(0, .type "x"), (600, .resolve 0 (.ok [itemA])),
         (700, .type "y"), (1300, .resolve 1 (.error ()))]).results = [itemA] ∧
    ([itemA] : List SearchResult) ≠ [] := by
  refine ⟨by decide, by decide, by decide, by decide⟩

/-- C3 amended: when the remote call of a still-pending request rejects, the
state becomes the Failed outcome with the fixed retry message and loading
becomes false (the fault is absorbed into state, never rethrown — the model
of the continuation is a total function), but `results` is left untouched:
the item list from a prior successful query is retained, not cleared. -/
theorem failure_sets_error_retains_results (s : Model) (id : Nat)
    (hmem : s.inflight.any (fun p => p.1 == id) = true) :
    (resolveReq s id (.error ())).error = some searchFailedMessage ∧
    (resolveReq s id (.error ())).loading = false ∧
    (resolveReq s id (.error ())).results = s.results := by
  simp [resolveReq, hmem, applyResponse]

/-- Witness for C3 amended: a failing resolution over prior results `[itemA]`
sets the retry message, clears loading, and keeps `[itemA]`. -/
theorem failure_sets_error_retains_results_witness :
    (resolveReq { initModel with inflight := [(1, "y")], results := [itemA] }
        1 (.error ())).error = some searchFailedMessage ∧
    (resolveReq { initModel with inflight := [(1, "y")], results := [itemA] }
        1 (.error ())).loading = false ∧
    (resolveReq { initModel with inflight := [(1, "y")], results := [itemA] }
        1 (.error ())).results =
      ({ initModel with inflight := [(1, "y")], results := [itemA] } : Model).results :=
  failure_sets_error_retains_results _ 1 (by decide)

/-- C7: when the remote call of a still-pending request succeeds with an
empty list, the state becomes the Empty outcome — the fixed no-results
message in `error`, the item list cleared, loading off — and the screen then
renders the dedicated error view showing that message, which in particular is
not the presenter loading indicator. -/
theorem empty_success_shows_no_results (s : Model) (id : Nat)
    (hmem : s.inflight.any (fun p => p.1 == id) = true) :
    (resolveReq s id (.ok [])).error = some noResultsMessage ∧
    (resolveReq s id (.ok [])).results = [] ∧
    (resolveReq s id (.ok [])).loading = false ∧
    renderSearchContent (resolveReq s id (.ok [])).results
        (resolveReq s id (.ok [])).loading (resolveReq s id (.ok [])).error
      = .screenError noResultsMessage ∧
    renderSearchContent (resolveReq s id (.ok [])).results
        (resolveReq s id (.ok [])).loading (resolveReq s id (.ok [])).error
      ≠ .presenter .loadingIndicator := by
  have hne : noResultsMessage ≠ "" := by decide
  simp [resolveReq, hmem, applyResponse, renderSearchContent, hne]

/-- Witness for C7: resolving the only pending request with an empty result
list from the initial state yields the no-results state and render. -/
theorem empty_success_shows_no_results_witness :
    (resolveReq { initModel with inflight := [(0, "a")] } 0 (.ok [])).error
      = some noResultsMessage ∧
    (resolveReq { initModel with inflight := [(0, "a")] } 0 (.ok [])).results = [] ∧
    (resolveReq { initModel with inflight := [(0, "a")] } 0 (.ok [])).loading = false ∧
    renderSearchContent (resolveReq { initModel with inflight := [(0, "a")] } 0 (.ok [])).results
        (resolveReq { initModel with inflight := [(0, "a")] } 0 (.ok [])).loading
        (resolveReq { initModel with inflight := [(0, "a")] } 0 (.ok [])).error
      = .screenError noResultsMessage ∧
    renderSearchContent (resolveReq { initModel with inflight := [(0, "a")] } 0 (.ok [])).results
        (resolveReq { initModel with inflight := [(0, "a")] } 0 (.ok [])).loading
        (resolveReq { initModel with inflight := [(0, "a")] } 0 (.ok [])).error
      ≠ .presenter .loadingIndicator :=
  empty_success_shows_no_results _ 0 (by decide)

/-- Helper: along a rapid change sequence, a run of term-change events never
fires the debounce timer — each change arrives before the pending fire time
and reschedules — so the state after the run is the state after the last
change: no calls issued, timer armed for the last term at its change time
plus `DEBOUNCE_DELAY`, loading shown and error cleared throughout. -/
theorem debounce_run_inv :
    ∀ (rest : List (Nat × String)) (s : Model) (prev : Nat) (wp : String),
      s.now = prev →
      s.timer = some (prev + DEBOUNCE_DELAY, wp) →
      s.loading = true → s.error = none → s.keyword = wp →
      rapidFrom prev rest = true →
      runFrom s (typeEvents rest) =
        { s with now := (rest.map Prod.fst).getLastD prev
                 keyword := (rest.map Prod.snd).getLastD wp
                 loading := true
                 error := none
                 timer := some ((rest.map Prod.fst).getLastD prev + DEBOUNCE_DELAY,
                                (rest.map Prod.snd).getLastD wp) } := by
  intro rest
  induction rest with
  | nil =>
      intro s prev wp hnow htimer hload herr hkw _
      simp only [typeEvents, List.map_nil, runFrom, List.getLastD_nil]
      cases s
      simp_all
  | cons hd rest ih =>
      obtain ⟨t, w⟩ := hd
      intro s prev wp hnow htimer hload herr hkw hrapid
      simp only [rapidFrom, Bool.and_eq_true, decide_eq_true_eq] at hrapid
      obtain ⟨⟨⟨hlt, hltD⟩, hw⟩, hrest⟩ := hrapid
      have hnofire : ¬ (prev + DEBOUNCE_DELAY ≤ t) := Nat.not_le.mpr hltD
      have hstep : handleEv (advanceTo s t) (.type w) =
          { s with now := t, keyword := w, loading := true, error := none,
                   timer := some (t + DEBOUNCE_DELAY, w) } := by
        simp [handleEv, advanceTo, fireDue, htimer, hnofire, onTermChanged, hw]
      have hrec := ih
          { s with now := t, keyword := w, loading := true, error := none,
                   timer := some (t + DEBOUNCE_DELAY, w) }
          t w rfl rfl rfl rfl rfl hrest
      simp only [typeEvents, List.map_cons, runFrom] at hrec ⊢
      rw [hstep, hrec]
      simp only [List.getLastD_cons]

/-- Helper: the last term of a rapid change sequence is non-blank. -/
theorem rapidFrom_last_nonempty :
    ∀ (rest : List (Nat × String)) (prev : Nat) (wp : String),
      jsTrim wp ≠ "" → rapidFrom prev rest = true →
      jsTrim ((rest.map Prod.snd).getLastD wp) ≠ "" := by
  intro rest
  induction rest with
  | nil => intro prev wp h _; simpa [List.getLastD_nil] using h
  | cons hd rest ih =>
      obtain ⟨t, w⟩ := hd
      intro prev wp h hr
      simp only [rapidFrom, Bool.and_eq_true, decide_eq_true_eq] at hr
      obtain ⟨⟨⟨hlt, hltD⟩, hw⟩, hrest⟩ := hr
      simpa only [List.map_cons, List.getLastD_cons] using ih t w hw hrest

/-- Helper: advancing past the fire time of an armed timer holding a
non-blank term fires it exactly once — the timer is cleared and the captured
term is dispatched at its scheduled fire time. -/
theorem advanceTo_fires (s : Model) (ft : Nat) (w : String) (T : Nat)
    (htimer : s.timer = some (ft, w)) (hle : ft ≤ T) (hw : jsTrim w ≠ "") :
    advanceTo s T =
      { s with timer := none, error := none,
               inflight := s.inflight ++ [(s.nextReq, w)],
               calls := s.calls ++ [(ft, w)],
               nextReq := s.nextReq + 1, now := T } := by
  simp [advanceTo, fireDue, htimer, hle, handleSearchDispatch, hw]

/-- C2: starting from the initial state, for every sequence of non-blank term
changes in which each change arrives strictly within `DEBOUNCE_DELAY` of the
previous one, observed at any time `T` at least `DEBOUNCE_DELAY` past the
last change: exactly one remote call has fired, it carries the final term of
the sequence, and it fired at exactly the last change time plus
`DEBOUNCE_DELAY` — never during the rapid sequence (each change cancels and
replaces the single pending timer, which is gone after the fire). -/
theorem debounce_single_call (t0 : Nat) (w0 : String) (rest : List (Nat × String))
    (T : Nat)
    (h0 : jsTrim w0 ≠ "")
    (hr : rapidFrom t0 rest = true)
    (hT : (rest.map Prod.fst).getLastD t0 + DEBOUNCE_DELAY ≤ T) :
    (advanceTo (runFrom initModel (typeEvents ((t0, w0) :: rest))) T).calls
      = [((rest.map Prod.fst).getLastD t0 + DEBOUNCE_DELAY,
          (rest.map Prod.snd).getLastD w0)] ∧
    (advanceTo (runFrom initModel (typeEvents ((t0, w0) :: rest))) T).timer = none ∧
    (advanceTo (runFrom initModel (typeEvents ((t0, w0) :: rest))) T).inflight
      = [(0, (rest.map Prod.snd).getLastD w0)] := by
  have hfirst : handleEv (advanceTo initModel t0) (.type w0) =
      { initModel with now := t0, keyword := w0, loading := true, error := none,
                       timer := some (t0 + DEBOUNCE_DELAY, w0) } := by
    simp [handleEv, advanceTo, fireDue, initModel, onTermChanged, h0]
  have hrun : runFrom initModel (typeEvents ((t0, w0) :: rest)) =
      { initModel with
          now := (rest.map Prod.fst).getLastD t0
          keyword := (rest.map Prod.snd).getLastD w0
          loading := true
          error := none
          timer := some ((rest.map Prod.fst).getLastD t0 + DEBOUNCE_DELAY,
                         (rest.map Prod.snd).getLastD w0) } := by
    have hrec := debounce_run_inv rest
        { initModel with now := t0, keyword := w0, loading := true, error := none,
                         timer := some (t0 + DEBOUNCE_DELAY, w0) }
        t0 w0 rfl rfl rfl rfl rfl hr
    simp only [typeEvents, List.map_cons, runFrom] at hrec ⊢
    rw [hfirst, hrec]
  have hlast : jsTrim ((rest.map Prod.snd).getLastD w0) ≠ "" :=
    rapidFrom_last_nonempty rest t0 w0 h0 hr
  rw [hrun]
  rw [advanceTo_fires _ ((rest.map Prod.fst).getLastD t0 + DEBOUNCE_DELAY)
      ((rest.map Prod.snd).getLastD w0) T rfl hT hlast]
  simp [initModel]

/-- Witness for C2: typing "b" at 0 ms, "ba" at 100 ms and "bat" at 300 ms,
then observing at 900 ms, exactly one call has fired — for "bat" at
800 ms. -/
theorem debounce_single_call_witness :
    (advanceTo (runFrom initModel
        (typeEvents [(0, "b"), (100, "ba"), (300, "bat")])) 900).calls
      = [(800, "bat")] ∧
    (advanceTo (runFrom initModel
        (typeEvents [(0, "b"), (100, "ba"), (300, "bat")])) 900).inflight
      = [(0, "bat")] := by
  have h := debounce_single_call 0 "b" [(100, "ba"), (300, "bat")] 900
    (by decide) (by decide) (by decide)
  exact ⟨h.1, h.2.2⟩

end ShiIuTV
